import Mathlib

/-
  Shallow embedding of the authentication core of `module-auth`
  (packages/auth-backend): the JWT issuer/verifier (src/utils/jwt.js),
  the in-memory user store (src/models/adapters/memory.js), the user
  sanitizer (models/user.js, mirrored in adapters/mysql.js), and the
  Auth Service state machine (src/services/authService.js).

  JS objects become Lean structures; the `Map` of users becomes a list in
  insertion order (JS `Map` preserves insertion order, and `set` on an
  existing key keeps its position); thrown errors become `Except`;
  `Date.now()` / token issuance time becomes an explicit `now : Nat`
  argument; `crypto.randomUUID()` becomes an explicit `newId` argument.
  JWT strings are represented by their determining data: payload claims,
  issued-at, expiry and signing secret — two JWTs coincide as strings
  exactly when all of these coincide, so `DecidableEq Token` mirrors
  string equality of encoded tokens.
-/

namespace ModuleAuth

/-- Token classes, mirroring the `type` claims used in utils/jwt.js
(`'refresh'`, `'email-verification'`, `'password-reset'`); access tokens
carry no `type` claim in the source, represented here by `.access`. -/
inductive TokenType where
  | access
  | refresh
  | emailVerification
  | passwordReset
deriving DecidableEq

/-- Signed JWT, represented by the data that determines the encoded
string: the payload claims (`id`, and for access tokens `email`/`role`),
the issued-at and expiry timestamps added by `jwt.sign`, and the signing
secret. -/
structure Token where
  id : String
  email : Option String := none
  role : Option String := none
  type : TokenType
  iat : Nat
  exp : Nat
  secret : String
deriving DecidableEq

/-- Error values thrown by the backend: the `APIError` subclasses of
utils/errors.js, plus the plain `Error`s thrown by utils/jwt.js
(`tokenExpired` for the `TokenExpiredError` rewrap branch, `invalidToken`
for the `JsonWebTokenError` rewrap branch and the `'Invalid token type'`
check) and by the memory adapter (`genericError`). -/
inductive Err where
  | authentication (msg : String)
  | conflict (msg : String)
  | notFound (msg : String)
  | validation (msg : String)
  | tokenExpired (msg : String)
  | invalidToken (msg : String)
  | genericError (msg : String)
deriving DecidableEq

/-- JWT section of config/index.js; durations kept as abstract `Nat`
amounts added to the issuance time. -/
structure JwtConfig where
  secret : String
  refreshSecret : String
  expiresIn : Nat
  refreshExpiresIn : Nat
deriving DecidableEq

/-- Security section of config/index.js (expiries of the verification and
reset token classes). -/
structure SecurityConfig where
  emailVerificationExpiresIn : Nat
  passwordResetExpiresIn : Nat
deriving DecidableEq

/-- Feature flags of config/index.js used by the auth service. -/
structure FeaturesConfig where
  emailVerification : Bool
deriving DecidableEq

/-- Configuration consumed by the embedded core. Hooks default to `null`
in the source and are not modelled (no claim exercises them). -/
structure Config where
  jwt : JwtConfig
  features : FeaturesConfig
  security : SecurityConfig
deriving DecidableEq

/-- Default configuration values from config/index.js (durations as
seconds: `'15m'`, `'7d'`, 24h, 1h). -/
def defaultConfig : Config :=
  { jwt :=
      { secret := "default-secret-change-in-production"
        refreshSecret := "default-refresh-secret-change-in-production"
        expiresIn := 900
        refreshExpiresIn := 604800 }
    features := { emailVerification := false }
    security :=
      { emailVerificationExpiresIn := 86400
        passwordResetExpiresIn := 3600 } }

/-- ASCII lowercasing of one character (the fragment of JS
`toLowerCase` exercised by email normalization). -/
def lowerChar (c : Char) : Char :=
  if c.isUpper then Char.ofNat (c.toNat + 32) else c

/-- JavaScript `s.toLowerCase()` over its ASCII fragment, written by
structural recursion over the character list so that concrete inputs
evaluate. -/
def jsToLower (s : String) : String :=
  ⟨s.data.map lowerChar⟩

/-- JavaScript `s || dflt` on strings: the empty string is falsy. -/
def jsOrStr (s : String) (dflt : String) : String :=
  if s = "" then dflt else s

/-- JavaScript `o || dflt` where `o` is a possibly-absent string field:
`undefined` and `""` both fall back to the default. -/
def jsOr (o : Option String) (dflt : String) : String :=
  match o with
  | some s => jsOrStr s dflt
  | none => dflt

/-- JavaScript `o || null` on a possibly-absent string field
(memory.js `createUser`: `name: userData.name || null`). -/
def jsOrNull (o : Option String) : Option String :=
  match o with
  | some s => if s = "" then none else some s
  | none => none

/-! jwt.js: token issuance. `jwt.sign(payload, secret, {expiresIn})`
adds `iat = now` and `exp = now + expiresIn` to the payload. -/

/-- jwt.js `generateAccessToken`: signs `{id, email, role: role || 'user'}`
with `config.jwt.secret`, expiry `config.jwt.expiresIn`. -/
def generateAccessToken (cfg : Config) (now : Nat) (id email role : String) : Token :=
  { id := id
    email := some email
    role := some (jsOrStr role "user")
    type := .access
    iat := now
    exp := now + cfg.jwt.expiresIn
    secret := cfg.jwt.secret }

/-- jwt.js `generateRefreshToken`: signs `{id, type: 'refresh'}` with
`config.jwt.refreshSecret`, expiry `config.jwt.refreshExpiresIn`. -/
def generateRefreshToken (cfg : Config) (now : Nat) (id : String) : Token :=
  { id := id
    type := .refresh
    iat := now
    exp := now + cfg.jwt.refreshExpiresIn
    secret := cfg.jwt.refreshSecret }

/-- jwt.js `generateEmailVerificationToken`: signs
`{id, type: 'email-verification'}` with `config.jwt.secret`. -/
def generateEmailVerificationToken (cfg : Config) (now : Nat) (id : String) : Token :=
  { id := id
    type := .emailVerification
    iat := now
    exp := now + cfg.security.emailVerificationExpiresIn
    secret := cfg.jwt.secret }

/-- jwt.js `generatePasswordResetToken`: signs
`{id, type: 'password-reset'}` with `config.jwt.secret`. -/
def generatePasswordResetToken (cfg : Config) (now : Nat) (id : String) : Token :=
  { id := id
    type := .passwordReset
    iat := now
    exp := now + cfg.security.passwordResetExpiresIn
    secret := cfg.jwt.secret }

/-! jwt.js: token verification. `jwt.verify` checks the signature first
(a signature mismatch raises `JsonWebTokenError` regardless of expiry),
then the expiry (`TokenExpiredError` when `now ≥ exp`); jwt.js then
checks the `type` claim and rewraps the library errors into plain
`Error`s with class-specific messages. -/

/-- jwt.js `verifyRefreshToken`: verify against `config.jwt.refreshSecret`,
then require `type === 'refresh'`. -/
def verifyRefreshToken (cfg : Config) (now : Nat) (t : Token) : Except Err Token :=
  if t.secret ≠ cfg.jwt.refreshSecret then
    .error (.invalidToken "Invalid refresh token")
  else if t.exp ≤ now then
    .error (.tokenExpired "Refresh token has expired")
  else if t.type ≠ TokenType.refresh then
    .error (.invalidToken "Invalid token type")
  else
    .ok t

/-- jwt.js `verifyEmailVerificationToken`: verify against
`config.jwt.secret`, then require `type === 'email-verification'`. -/
def verifyEmailVerificationToken (cfg : Config) (now : Nat) (t : Token) : Except Err Token :=
  if t.secret ≠ cfg.jwt.secret then
    .error (.invalidToken "Invalid email verification token")
  else if t.exp ≤ now then
    .error (.tokenExpired "Email verification token has expired")
  else if t.type ≠ TokenType.emailVerification then
    .error (.invalidToken "Invalid token type")
  else
    .ok t

/-- jwt.js `verifyPasswordResetToken`: verify against `config.jwt.secret`,
then require `type === 'password-reset'`. -/
def verifyPasswordResetToken (cfg : Config) (now : Nat) (t : Token) : Except Err Token :=
  if t.secret ≠ cfg.jwt.secret then
    .error (.invalidToken "Invalid password reset token")
  else if t.exp ≤ now then
    .error (.tokenExpired "Password reset token has expired")
  else if t.type ≠ TokenType.passwordReset then
    .error (.invalidToken "Invalid token type")
  else
    .ok t

/-! password.js: bcrypt hashing. The salted bcrypt primitive is an
external dependency; it is modelled as an injective deterministic tagging
function together with the matching verifier, which is the contract the
service relies on (`comparePassword(p, hashPassword(p)) = true`, and
mismatching plaintexts verify false). -/

/-- Model of password.js `hashPassword` (bcrypt.hash). -/
def hashPassword (plain : String) : String :=
  "bcrypt$" ++ plain

/-- Model of password.js `comparePassword` (bcrypt.compare): true exactly
when the stored hash is the hash of the supplied plaintext. -/
def comparePassword (plain stored : String) : Bool :=
  hashPassword plain == stored

/-- User record exactly as built by memory.js `createUser` (the set of
fields of a stored user object). -/
structure User where
  id : String
  email : String
  password : String
  name : Option String
  phone : Option String
  role : String
  isEmailVerified : Bool
  isActive : Bool
  avatar : Option String
  bio : Option String
  lastLogin : Option Nat
  refreshTokens : List Token
  createdAt : Nat
  updatedAt : Nat
deriving DecidableEq

/-- In-memory store of memory.js: `this.users` is a `Map` keyed by
`user.id`; modelled as the list of users in insertion order. -/
structure Db where
  users : List User
deriving DecidableEq

namespace Db

/-- memory.js `findUserById`: `this.users.get(id)`. -/
def findUserById (db : Db) (id : String) : Option User :=
  db.users.find? (fun u => u.id == id)

/-- memory.js `findUserByEmailSync`: first user whose stored email equals
the lowercased argument. -/
def findUserByEmail (db : Db) (email : String) : Option User :=
  db.users.find? (fun u => u.email == jsToLower email)

/-- Helper: `this.users.set(id, f(user))` for an existing key — replace
the entry for `id` in place, keeping insertion order. -/
def mapUser (db : Db) (id : String) (f : User → User) : Db :=
  { users := db.users.map (fun u => if u.id == id then f u else u) }

/-- Inputs accepted by memory.js `createUser` (fields it reads off
`userData`; absent JS fields are `none`). -/
structure CreateUserData where
  email : String
  password : String
  name : Option String := none
  phone : Option String := none
  role : Option String := none
  isEmailVerified : Bool := false
  isActive : Option Bool := none
  avatar : Option String := none
  bio : Option String := none

/-- memory.js `createUser`: build the record with field defaults, throw
`Error('Email already exists')` on a duplicate email, else insert. -/
def createUser (db : Db) (now : Nat) (newId : String) (d : CreateUserData) :
    Except Err (Db × User) :=
  let user : User :=
    { id := newId
      email := jsToLower d.email
      password := d.password
      name := jsOrNull d.name
      phone := jsOrNull d.phone
      role := jsOr d.role "user"
      isEmailVerified := d.isEmailVerified
      isActive := d.isActive.getD true
      avatar := jsOrNull d.avatar
      bio := jsOrNull d.bio
      lastLogin := none
      refreshTokens := []
      createdAt := now
      updatedAt := now }
  match db.findUserByEmail user.email with
  | some _ => .error (.genericError "Email already exists")
  | none => .ok ({ users := db.users ++ [user] }, user)

/-- Partial update object passed to memory.js `updateUser` (`...updates`
spread over the user record). A field set to `some v` is present on the
updates object; nullable user fields can be explicitly set to null
(`some none`). -/
structure Updates where
  name : Option (Option String) := none
  phone : Option (Option String) := none
  bio : Option (Option String) := none
  avatar : Option (Option String) := none
  email : Option String := none
  password : Option String := none
  role : Option String := none
  isEmailVerified : Option Bool := none
  isActive : Option Bool := none
  lastLogin : Option (Option Nat) := none
  refreshTokens : Option (List Token) := none

/-- JS object spread `{...user, ...updates}`: each field present on the
updates object overrides the user's field. -/
def applyUpdates (u : User) (d : Updates) : User :=
  { u with
    name := d.name.getD u.name
    phone := d.phone.getD u.phone
    bio := d.bio.getD u.bio
    avatar := d.avatar.getD u.avatar
    email := d.email.getD u.email
    password := d.password.getD u.password
    role := d.role.getD u.role
    isEmailVerified := d.isEmailVerified.getD u.isEmailVerified
    isActive := d.isActive.getD u.isActive
    lastLogin := d.lastLogin.getD u.lastLogin
    refreshTokens := d.refreshTokens.getD u.refreshTokens }

/-- memory.js `updateUser`: throw `Error('User not found')` if absent;
else spread the updates over the record, restore `id`, stamp
`updatedAt`, and store. -/
def updateUser (db : Db) (now : Nat) (id : String) (d : Updates) :
    Except Err (Db × User) :=
  match db.findUserById id with
  | none => .error (.genericError "User not found")
  | some u =>
    let u' := { applyUpdates u d with id := u.id, updatedAt := now }
    .ok (db.mapUser id (fun _ => u'), u')

/-- memory.js `addRefreshToken`: push the token and stamp `updatedAt`;
no-op when the user does not exist. -/
def addRefreshToken (db : Db) (now : Nat) (id : String) (t : Token) : Db :=
  db.mapUser id (fun u =>
    { u with refreshTokens := u.refreshTokens ++ [t], updatedAt := now })

/-- memory.js `removeRefreshToken`: filter out every copy of the token
and stamp `updatedAt`; no-op when the user does not exist. -/
def removeRefreshToken (db : Db) (now : Nat) (id : String) (t : Token) : Db :=
  db.mapUser id (fun u =>
    { u with refreshTokens := u.refreshTokens.filter (fun x => x ≠ t)
             updatedAt := now })

/-- memory.js `removeAllRefreshTokens`: clear the set and stamp
`updatedAt`. -/
def removeAllRefreshTokens (db : Db) (now : Nat) (id : String) : Db :=
  db.mapUser id (fun u => { u with refreshTokens := [], updatedAt := now })

/-- memory.js `updateLastLogin`: set `lastLogin` and stamp `updatedAt`. -/
def updateLastLogin (db : Db) (now : Nat) (id : String) : Db :=
  db.mapUser id (fun u => { u with lastLogin := some now, updatedAt := now })

end Db

/-- Generic JSON-ish field value, used to represent the sanitized user
object returned to clients as a key/value list. -/
inductive Value where
  | str (s : String)
  | bool (b : Bool)
  | nat (n : Nat)
  | null
deriving DecidableEq

/-- Encode a nullable string field as a `Value`. -/
def optStrV (o : Option String) : Value :=
  match o with
  | some s => .str s
  | none => .null

/-- Encode a nullable timestamp field as a `Value`. -/
def optNatV (o : Option Nat) : Value :=
  match o with
  | some n => .nat n
  | none => .null

/-- models/user.js `sanitizeUser`:
`const { password, refreshTokens, ...sanitized } = user` — the returned
object holds every field of the stored user record except `password` and
`refreshTokens`. -/
def sanitizeUser (u : User) : List (String × Value) :=
  [ ("id", .str u.id)
  , ("email", .str u.email)
  , ("name", optStrV u.name)
  , ("phone", optStrV u.phone)
  , ("role", .str u.role)
  , ("isEmailVerified", .bool u.isEmailVerified)
  , ("isActive", .bool u.isActive)
  , ("avatar", optStrV u.avatar)
  , ("bio", optStrV u.bio)
  , ("lastLogin", optNatV u.lastLogin)
  , ("createdAt", .nat u.createdAt)
  , ("updatedAt", .nat u.updatedAt) ]

/-- Result shape `{ user, accessToken, refreshToken }` returned by
register, login and the refresh flow. -/
structure AuthResult where
  user : List (String × Value)
  accessToken : Token
  refreshToken : Token
deriving DecidableEq

/-- jwt.js `generateTokens`: access token from `{id, email, role}`, plus
a refresh token from `{id}`. -/
def generateTokens (cfg : Config) (now : Nat) (u : User) : Token × Token :=
  (generateAccessToken cfg now u.id u.email u.role,
   generateRefreshToken cfg now u.id)

/-- Model of an email dispatch attempt (utils/email.js is an external
transport): `ok = true` means the send resolved, `ok = false` that it
rejected. -/
def sendPasswordResetEmail (ok : Bool) : Except Err Unit :=
  if ok then .ok () else .error (.genericError "Email send failed")

/-- Registration data read by authService.js `register` off `userData`. -/
structure RegisterData where
  email : String
  password : String
  name : Option String := none
  phone : Option String := none
  role : Option String := none

namespace AuthService

/-- authService.js `register`: reject a duplicate email with
`ConflictError`, hash the password, create the user (role defaulted with
`userData.role || 'user'`, `isEmailVerified` auto-true when the
verification feature is disabled), issue a token pair, persist the
refresh token, and return the sanitized user with both tokens. Emails
and the optional `onRegister` hook have no effect on the returned data
or the store and are not modelled. -/
def register (cfg : Config) (db : Db) (now : Nat) (newId : String)
    (userData : RegisterData) : Except Err (Db × AuthResult) :=
  match db.findUserByEmail userData.email with
  | some _ => .error (.conflict "Email already registered")
  | none =>
    let hashed := hashPassword userData.password
    match db.createUser now newId
        { email := jsToLower userData.email
          password := hashed
          name := userData.name
          phone := userData.phone
          role := some (jsOr userData.role "user")
          isEmailVerified := !cfg.features.emailVerification } with
    | .error e => .error e
    | .ok (db1, user) =>
      let tokens := generateTokens cfg now user
      let db2 := db1.addRefreshToken now user.id tokens.2
      .ok (db2, { user := sanitizeUser user
                  accessToken := tokens.1
                  refreshToken := tokens.2 })

/-- authService.js `login`: user lookup failure and password mismatch
both collapse to `AuthenticationError('Invalid email or password')`; a
deactivated account is rejected before the password is verified; an
unverified email is rejected when the feature is enabled; on success a
token pair is issued, the refresh token persisted, and the last login
stamped. -/
def login (cfg : Config) (db : Db) (now : Nat) (email password : String) :
    Except Err (Db × AuthResult) :=
  match db.findUserByEmail email with
  | none => .error (.authentication "Invalid email or password")
  | some user =>
    if !user.isActive then
      .error (.authentication
        "Your account has been deactivated. Please contact support.")
    else if !comparePassword password user.password then
      .error (.authentication "Invalid email or password")
    else if cfg.features.emailVerification && !user.isEmailVerified then
      .error (.authentication
        "Please verify your email address before logging in")
    else
      let tokens := generateTokens cfg now user
      let db1 := db.addRefreshToken now user.id tokens.2
      let db2 := db1.updateLastLogin now user.id
      .ok (db2, { user := sanitizeUser user
                  accessToken := tokens.1
                  refreshToken := tokens.2 })

/-- authService.js `logout`: remove the given refresh token from the
user's set (the hooks default to `null` and are not modelled); never
throws. -/
def logout (db : Db) (now : Nat) (userId : String) (t : Token) :
    Except Err Db :=
  .ok (db.removeRefreshToken now userId t)

/-- authService.js `logoutAll`: clear the user's refresh-token set. -/
def logoutAll (db : Db) (now : Nat) (userId : String) : Except Err Db :=
  .ok (db.removeAllRefreshTokens now userId)

/-- authService.js `refreshToken`: verify the presented token, look up
the user by its `id` claim, require the token to be present in the
persisted set, then rotate: remove the old token, issue a fresh pair,
persist the new refresh token, and return the sanitized user with the
new pair. The source performs no `isActive` check in this flow. -/
def refreshToken (cfg : Config) (db : Db) (now : Nat) (t : Token) :
    Except Err (Db × AuthResult) :=
  match verifyRefreshToken cfg now t with
  | .error e => .error e
  | .ok decoded =>
    match db.findUserById decoded.id with
    | none => .error (.authentication "User not found")
    | some user =>
      if t ∈ user.refreshTokens then
        let db1 := db.removeRefreshToken now user.id t
        let tokens := generateTokens cfg now user
        let db2 := db1.addRefreshToken now user.id tokens.2
        .ok (db2, { user := sanitizeUser user
                    accessToken := tokens.1
                    refreshToken := tokens.2 })
      else
        .error (.authentication "Invalid refresh token")

/-- authService.js `verifyEmail`: verify the email-verification token,
fail `NotFoundError` if the user is gone, `ValidationError` if already
verified, else flip the flag via `updateUser` and return the sanitized
updated user. -/
def verifyEmail (cfg : Config) (db : Db) (now : Nat) (t : Token) :
    Except Err (Db × List (String × Value)) :=
  match verifyEmailVerificationToken cfg now t with
  | .error e => .error e
  | .ok decoded =>
    match db.findUserById decoded.id with
    | none => .error (.notFound "User not found")
    | some user =>
      if user.isEmailVerified then
        .error (.validation "Email already verified")
      else
        match db.updateUser now user.id { isEmailVerified := some true } with
        | .error e => .error e
        | .ok (db1, updatedUser) => .ok (db1, sanitizeUser updatedUser)

/-- authService.js `forgotPassword`: look up the user; silently return
when absent; otherwise issue a reset token and dispatch the reset email;
the surrounding catch logs any error and returns normally, so the caller
always observes a plain resolution and an untouched store. -/
def forgotPassword (cfg : Config) (db : Db) (now : Nat) (email : String)
    (sendOk : Bool) : Except Err Unit × Db :=
  match db.findUserByEmail email with
  | none => (.ok (), db)
  | some user =>
    let _resetToken := generatePasswordResetToken cfg now user.id
    match sendPasswordResetEmail sendOk with
    | .ok _ => (.ok (), db)
    | .error _ => (.ok (), db)

/-- authService.js `resetPassword`: verify the password-reset token, fail
`NotFoundError` if the user is gone, store the new password hash, and
clear the whole refresh-token set. -/
def resetPassword (cfg : Config) (db : Db) (now : Nat) (t : Token)
    (newPassword : String) : Except Err Db :=
  match verifyPasswordResetToken cfg now t with
  | .error e => .error e
  | .ok decoded =>
    match db.findUserById decoded.id with
    | none => .error (.notFound "User not found")
    | some user =>
      let hashed := hashPassword newPassword
      match db.updateUser now user.id { password := some hashed } with
      | .error e => .error e
      | .ok (db1, _) => .ok (db1.removeAllRefreshTokens now user.id)

/-- authService.js `changePassword`: fail `NotFoundError` if the user is
gone, `AuthenticationError('Current password is incorrect')` on a
mismatch, else store the new hash and clear the whole refresh-token
set. -/
def changePassword (db : Db) (now : Nat) (userId : String)
    (currentPassword newPassword : String) : Except Err Db :=
  match db.findUserById userId with
  | none => .error (.notFound "User not found")
  | some user =>
    if !comparePassword currentPassword user.password then
      .error (.authentication "Current password is incorrect")
    else
      let hashed := hashPassword newPassword
      match db.updateUser now user.id { password := some hashed } with
      | .error e => .error e
      | .ok (db1, _) => .ok (db1.removeAllRefreshTokens now user.id)

/-- authService.js `getProfile`: fail `NotFoundError` if absent, else
return the sanitized user. -/
def getProfile (db : Db) (userId : String) :
    Except Err (List (String × Value)) :=
  match db.findUserById userId with
  | none => .error (.notFound "User not found")
  | some user => .ok (sanitizeUser user)

/-- authService.js `updateProfile`: copy only the allow-listed fields
(`name`, `phone`, `bio`, `avatar`) that are present on the updates
object into `filteredUpdates`, pass those to `updateUser`, and return
the sanitized updated user. -/
def filterAllowed (d : Db.Updates) : Db.Updates :=
  { name := d.name, phone := d.phone, bio := d.bio, avatar := d.avatar }

/-- authService.js `updateProfile` (see `filterAllowed` for the
allow-list step). -/
def updateProfile (db : Db) (now : Nat) (userId : String)
    (updates : Db.Updates) : Except Err (Db × List (String × Value)) :=
  match db.updateUser now userId (filterAllowed updates) with
  | .error e => .error e
  | .ok (db1, updatedUser) => .ok (db1, sanitizeUser updatedUser)

end AuthService

/-- Modelled from the spec and utils/validation.js `registerSchema` with
`validate`'s `stripUnknown: true`: the schema declares only `email`,
`password`, `name` and `phone`, so every other key of the request body —
in particular `role` — is stripped before the service is called. Format
constraints of the schema (email shape, password strength) are not
modelled; only the key-stripping behaviour matters to the claims. -/
def registerSchemaStrip (body : RegisterData) : RegisterData :=
  { email := body.email
    password := body.password
    name := body.name
    phone := body.phone
    role := none }

/-! Helper lemmas about the store operations. -/

/-- Replacing the entry of a key in place commutes with looking that key
up, as long as the replacement keeps the key on matching entries. -/
theorem find_map_on_id (l : List User) (id : String) (f : User → User)
    (hf : ∀ u, u.id = id → (f u).id = id) :
    (l.map (fun u => if u.id == id then f u else u)).find?
        (fun u => u.id == id) =
      (l.find? (fun u => u.id == id)).map f := by
  induction l with
  | nil => rfl
  | cons u l ih =>
    by_cases h : u.id = id
    · simp [List.find?_cons, h, hf u h]
    · have hb : (u.id == id) = false := by simp [h]
      simp only [List.map_cons, List.find?_cons, hb, Bool.false_eq_true,
        if_false]
      exact ih

/-- `Db.findUserById` after `Db.mapUser` on the same id, for an
id-preserving transformation. -/
theorem Db.findUserById_mapUser (db : Db) (id : String) (f : User → User)
    (hf : ∀ u, u.id = id → (f u).id = id) :
    (db.mapUser id f).findUserById id = (db.findUserById id).map f :=
  find_map_on_id db.users id f hf

/-- Filtering out an absent token leaves the list unchanged
(memory.js `removeRefreshToken` on a token not in the set). -/
theorem filter_ne_of_not_mem {l : List Token} {t : Token} (h : t ∉ l) :
    l.filter (fun x => x ≠ t) = l := by
  apply List.filter_eq_self.mpr
  intro a ha
  exact decide_eq_true fun he => h (he ▸ ha)

/-- A token is never a member of the list it was just filtered out of. -/
theorem not_mem_filter_ne (l : List Token) (t : Token) :
    t ∉ l.filter (fun x => x ≠ t) := by
  intro hmem
  have hp := List.of_mem_filter hmem
  simp at hp

/-! Concrete fixtures used by counterexamples and witnesses. -/

/-- Refresh token issued at time 100 for user `u1` under the default
configuration (expires at 100 + 604800). -/
def refreshTok₀ : Token := generateRefreshToken defaultConfig 100 "u1"

/-- Deactivated user holding `refreshTok₀` in the persisted set. -/
def userDeact : User :=
  { id := "u1"
    email := "a@b.com"
    password := hashPassword "Correct1!"
    name := none
    phone := none
    role := "user"
    isEmailVerified := true
    isActive := false
    avatar := none
    bio := none
    lastLogin := none
    refreshTokens := [refreshTok₀]
    createdAt := 0
    updatedAt := 0 }

/-- Active, verified user with an empty refresh-token set. -/
def userActive : User :=
  { userDeact with id := "u2", email := "c@d.com", isActive := true
                   refreshTokens := [] }

/-- C1: the spec's invariant — a user with `isActive = false` may never
receive new tokens — is violated by `AuthService.refreshToken`, which
performs no `isActive` check: presented with a cryptographically valid,
unexpired refresh token held in a deactivated user's persisted set, it
resolves successfully, rotates the set, and returns a fresh access/refresh
pair instead of throwing. -/
theorem c1_refresh_ignores_inactive_flag :
    userDeact.isActive = false ∧
    verifyRefreshToken defaultConfig 200 refreshTok₀ = .ok refreshTok₀ ∧
    refreshTok₀ ∈ userDeact.refreshTokens ∧
    AuthService.refreshToken defaultConfig ⟨[userDeact]⟩ 200 refreshTok₀ =
      .ok (⟨[{ userDeact with
                refreshTokens := [generateRefreshToken defaultConfig 200 "u1"]
                updatedAt := 200 }]⟩,
           { user := sanitizeUser userDeact
             accessToken :=
               generateAccessToken defaultConfig 200 "u1" "a@b.com" "user"
             refreshToken := generateRefreshToken defaultConfig 200 "u1" }) := by
  refine ⟨rfl, rfl, ?_, rfl⟩
  simp [userDeact]

/-- C2 counterexample: for an existing but deactivated user and a
non-matching password, `login` throws the deactivation message, not
`'Invalid email or password'` — the account-state check runs before the
password check, so the message does distinguish this case. -/
theorem c2_counterexample :
    comparePassword "wrong" userDeact.password = false ∧
    AuthService.login defaultConfig ⟨[userDeact]⟩ 50 "a@b.com" "wrong" =
      .error (.authentication
        "Your account has been deactivated. Please contact support.") ∧
    "Your account has been deactivated. Please contact support." ≠
      "Invalid email or password" := by
  refine ⟨rfl, rfl, by decide⟩

/-- C2 (amended): `login` throws `AuthenticationError` with exactly
`'Invalid email or password'` when no user exists for the email, and when
the user exists, is active, and the password does not verify; for an
existing deactivated user the deactivation message is thrown before the
password is checked. -/
theorem c2_login_collapses_messages (cfg : Config) (db : Db) (now : Nat)
    (email password : String) :
    (db.findUserByEmail email = none →
      AuthService.login cfg db now email password =
        .error (.authentication "Invalid email or password")) ∧
    (∀ u, db.findUserByEmail email = some u → u.isActive = true →
      comparePassword password u.password = false →
      AuthService.login cfg db now email password =
        .error (.authentication "Invalid email or password")) := by
  constructor
  · intro h
    unfold AuthService.login
    rw [h]
  · intro u hu hact hpw
    unfold AuthService.login
    rw [hu]
    simp [hact, hpw]

/-- C2 witness: both branches of the amended statement at concrete
inputs — an email absent from the store, and an active user presented
with a wrong password. -/
theorem c2_login_collapses_messages_witness :
    AuthService.login defaultConfig ⟨[]⟩ 0 "x@y.zz" "pw" =
      .error (.authentication "Invalid email or password") ∧
    AuthService.login defaultConfig ⟨[userActive]⟩ 0 "c@d.com" "wrong" =
      .error (.authentication "Invalid email or password") :=
  ⟨(c2_login_collapses_messages defaultConfig ⟨[]⟩ 0 "x@y.zz" "pw").1 rfl,
   (c2_login_collapses_messages defaultConfig ⟨[userActive]⟩ 0 "c@d.com"
      "wrong").2 userActive rfl rfl rfl⟩

/-! Inversion and reduction lemmas for the refresh flow. -/

/-- Inverting a successful `verifyRefreshToken`: the claims are the token
itself, signed with the refresh secret, unexpired, of type refresh. -/
theorem verifyRefreshToken_ok {cfg : Config} {now : Nat} {t d : Token}
    (h : verifyRefreshToken cfg now t = .ok d) :
    d = t ∧ t.secret = cfg.jwt.refreshSecret ∧ now < t.exp ∧
      t.type = TokenType.refresh := by
  unfold verifyRefreshToken at h
  split at h
  · simp at h
  · split at h
    · simp at h
    · split at h
      · simp at h
      · rename_i h1 h2 h3
        cases h
        exact ⟨rfl, not_not.mp h1, Nat.lt_of_not_le h2, not_not.mp h3⟩

/-- A token signed with the refresh secret, unexpired and of type refresh
verifies successfully. -/
theorem verifyRefreshToken_ok_of (cfg : Config) (now : Nat) (t : Token)
    (hsec : t.secret = cfg.jwt.refreshSecret) (hexp : now < t.exp)
    (htype : t.type = TokenType.refresh) :
    verifyRefreshToken cfg now t = .ok t := by
  unfold verifyRefreshToken
  rw [if_neg (by simp [hsec]), if_neg (Nat.not_le.mpr hexp),
    if_neg (by simp [htype])]

/-- Looking up a user after a `mapUser` that replaces the entry with a
fixed record carrying the same id. -/
theorem Db.findUserById_mapUser_const (db : Db) (id : String) (u' : User)
    (hid : u'.id = id) :
    (db.mapUser id (fun _ => u')).findUserById id =
      (db.findUserById id).map (fun _ => u') :=
  Db.findUserById_mapUser db id _ (fun _ _ => hid)

/-- Looking up a user after `removeRefreshToken` on that user's id. -/
theorem Db.findUserById_removeRefreshToken (db : Db) (now : Nat)
    (id : String) (t : Token) :
    (db.removeRefreshToken now id t).findUserById id =
      (db.findUserById id).map (fun u =>
        { u with refreshTokens := u.refreshTokens.filter (fun x => x ≠ t)
                 updatedAt := now }) :=
  Db.findUserById_mapUser db id _ (fun _ hu => hu)

/-- Looking up a user after `addRefreshToken` on that user's id. -/
theorem Db.findUserById_addRefreshToken (db : Db) (now : Nat)
    (id : String) (t : Token) :
    (db.addRefreshToken now id t).findUserById id =
      (db.findUserById id).map (fun u =>
        { u with refreshTokens := u.refreshTokens ++ [t]
                 updatedAt := now }) :=
  Db.findUserById_mapUser db id _ (fun _ hu => hu)

/-- Looking up a user after `removeAllRefreshTokens` on that user's id. -/
theorem Db.findUserById_removeAllRefreshTokens (db : Db) (now : Nat)
    (id : String) :
    (db.removeAllRefreshTokens now id).findUserById id =
      (db.findUserById id).map (fun u =>
        { u with refreshTokens := ([] : List Token), updatedAt := now }) :=
  Db.findUserById_mapUser db id _ (fun _ hu => hu)

/-- A found user satisfies the lookup key. -/
theorem Db.findUserById_id {db : Db} {id : String} {u : User}
    (h : db.findUserById id = some u) : u.id = id := by
  have h' : db.users.find? (fun v => v.id == id) = some u := h
  have := List.find?_some h'
  exact eq_of_beq this

/-- C3 (amended): a successful `refreshToken(T)` call removes the
presented token from the user's persisted set and appends exactly the
one freshly issued refresh token (rotation); whenever that fresh token
differs from `T` — that is, whenever the rotation happens at a different
second than `T`'s issuance, since `jwt.sign` is deterministic over the
same payload, iat, exp and secret — a second sequential call with the
same `T`, while `T` is still cryptographically valid, fails with
`AuthenticationError('Invalid refresh token')`. (See the counterexample
for the same-second case, where the re-issued token is byte-identical to
`T` and the replay succeeds.) -/
theorem c3_refresh_rotation (cfg : Config) (db : Db) (now now2 : Nat)
    (t : Token) (p : Db × AuthResult)
    (h : AuthService.refreshToken cfg db now t = .ok p)
    (hfresh : generateRefreshToken cfg now t.id ≠ t)
    (hnow2 : now2 < t.exp) :
    (∃ u u', db.findUserById t.id = some u ∧
      p.1.findUserById t.id = some u' ∧
      u'.refreshTokens =
        u.refreshTokens.filter (fun x => x ≠ t) ++
          [generateRefreshToken cfg now t.id] ∧
      t ∉ u'.refreshTokens) ∧
    AuthService.refreshToken cfg p.1 now2 t =
      .error (.authentication "Invalid refresh token") := by
  unfold AuthService.refreshToken at h
  cases hv : verifyRefreshToken cfg now t with
  | error e => rw [hv] at h; simp at h
  | ok d =>
    obtain ⟨hd, hsec, hexp, htype⟩ := verifyRefreshToken_ok hv
    subst hd
    simp only [hv] at h
    cases hu : db.findUserById d.id with
    | none => rw [hu] at h; simp at h
    | some user =>
      simp only [hu] at h
      by_cases hmem : d ∈ user.refreshTokens
      · rw [if_pos hmem] at h
        injection h with h
        subst h
        dsimp only
        have hid : user.id = d.id := Db.findUserById_id hu
        have hnewid : (generateTokens cfg now user).2 =
            generateRefreshToken cfg now d.id := by
          simp [generateTokens, generateRefreshToken, hid]
        rw [hid, hnewid]
        have h1 := Db.findUserById_removeRefreshToken db now d.id d
        rw [hu] at h1
        have h2 := Db.findUserById_addRefreshToken
          (db.removeRefreshToken now d.id d) now d.id
          (generateRefreshToken cfg now d.id)
        rw [h1] at h2
        simp only [Option.map_some'] at h2
        have hnotmem :
            d ∉ (user.refreshTokens.filter (fun x => x ≠ d) ++
              [generateRefreshToken cfg now d.id]) := by
          intro hm
          rcases List.mem_append.mp hm with hm1 | hm2
          · exact not_mem_filter_ne _ d hm1
          · exact hfresh (List.mem_singleton.mp hm2).symm
        constructor
        · exact ⟨user, _, rfl, h2, rfl, hnotmem⟩
        · unfold AuthService.refreshToken
          rw [verifyRefreshToken_ok_of cfg now2 d hsec hnow2 htype]
          simp only [h2]
          rw [if_neg hnotmem]
      · rw [if_neg hmem] at h
        simp at h

/-- Active user holding `refreshTok₀` in the persisted set. -/
def userRot : User :=
  { userDeact with isActive := true }

/-- C3 counterexample: when the rotation happens in the same second the
presented token was issued (`now = iat = 100`), the freshly issued
refresh token is the byte-identical JWT, so the rotation removes `T` and
re-adds `T` itself — the persisted set still contains `T` and a second
sequential `refreshToken(T)` call succeeds instead of failing with
`AuthenticationError`, refuting the claim as universally stated. -/
theorem c3_counterexample :
    generateRefreshToken defaultConfig 100 "u1" = refreshTok₀ ∧
    (∃ p, AuthService.refreshToken defaultConfig ⟨[userRot]⟩ 100
        refreshTok₀ = .ok p ∧
      (p.1.findUserById "u1").map User.refreshTokens =
        some [refreshTok₀] ∧
      (AuthService.refreshToken defaultConfig p.1 100 refreshTok₀).isOk =
        true) := by
  exact ⟨rfl, _, rfl, rfl, rfl⟩

/-- C3 witness: the rotation theorem applied to a concrete store holding
one valid refresh token, refreshed at time 200 and replayed at 300. -/
theorem c3_refresh_rotation_witness :
    (∃ u u', Db.findUserById ⟨[userRot]⟩ refreshTok₀.id = some u ∧
      Db.findUserById
        ((⟨[{ userRot with
                refreshTokens := [generateRefreshToken defaultConfig 200 "u1"]
                updatedAt := 200 }]⟩ : Db),
          ({ user := sanitizeUser userRot
             accessToken :=
               generateAccessToken defaultConfig 200 "u1" "a@b.com" "user"
             refreshToken :=
               generateRefreshToken defaultConfig 200 "u1" } : AuthResult)).1
        refreshTok₀.id = some u' ∧
      u'.refreshTokens =
        u.refreshTokens.filter (fun x => x ≠ refreshTok₀) ++
          [generateRefreshToken defaultConfig 200 refreshTok₀.id] ∧
      refreshTok₀ ∉ u'.refreshTokens) ∧
    AuthService.refreshToken defaultConfig
      (⟨[{ userRot with
            refreshTokens := [generateRefreshToken defaultConfig 200 "u1"]
            updatedAt := 200 }]⟩ : Db) 300 refreshTok₀ =
      .error (.authentication "Invalid refresh token") := by
  have h := c3_refresh_rotation defaultConfig ⟨[userRot]⟩ 200 300 refreshTok₀
    (⟨[{ userRot with
          refreshTokens := [generateRefreshToken defaultConfig 200 "u1"]
          updatedAt := 200 }]⟩,
      { user := sanitizeUser userRot
        accessToken :=
          generateAccessToken defaultConfig 200 "u1" "a@b.com" "user"
        refreshToken := generateRefreshToken defaultConfig 200 "u1" })
    rfl (by decide) (by decide)
  exact ⟨h.1, h.2⟩

/-! Lemmas for the password reset/change flows. -/

/-- Inverting a successful `verifyPasswordResetToken`. -/
theorem verifyPasswordResetToken_ok {cfg : Config} {now : Nat} {t d : Token}
    (h : verifyPasswordResetToken cfg now t = .ok d) :
    d = t ∧ t.secret = cfg.jwt.secret ∧ now < t.exp ∧
      t.type = TokenType.passwordReset := by
  unfold verifyPasswordResetToken at h
  split at h
  · simp at h
  · split at h
    · simp at h
    · split at h
      · simp at h
      · rename_i h1 h2 h3
        cases h
        exact ⟨rfl, not_not.mp h1, Nat.lt_of_not_le h2, not_not.mp h3⟩

/-- A valid, unexpired refresh token presented against a store in which
its user's refresh-token set is empty fails the membership check. -/
theorem refreshToken_err_of_empty (cfg : Config) (db1 : Db) (now2 : Nat)
    (t : Token) (u' : User)
    (hfind : db1.findUserById t.id = some u')
    (hempty : u'.refreshTokens = [])
    (hsec : t.secret = cfg.jwt.refreshSecret) (hexp : now2 < t.exp)
    (htype : t.type = TokenType.refresh) :
    AuthService.refreshToken cfg db1 now2 t =
      .error (.authentication "Invalid refresh token") := by
  unfold AuthService.refreshToken
  rw [verifyRefreshToken_ok_of cfg now2 t hsec hexp htype]
  simp only [hfind]
  rw [if_neg (by simp [hempty])]

/-- After a successful `resetPassword`, the affected user's persisted
refresh-token set is empty. -/
theorem resetPassword_clears (cfg : Config) (db : Db) (now : Nat)
    (tok : Token) (newPw : String) (db1 : Db)
    (h : AuthService.resetPassword cfg db now tok newPw = .ok db1) :
    ∃ u', db1.findUserById tok.id = some u' ∧ u'.refreshTokens = [] := by
  unfold AuthService.resetPassword at h
  cases hv : verifyPasswordResetToken cfg now tok with
  | error e => rw [hv] at h; simp at h
  | ok dec =>
    obtain ⟨hd, _, _, _⟩ := verifyPasswordResetToken_ok hv
    subst hd
    simp only [hv] at h
    cases hu : db.findUserById dec.id with
    | none => rw [hu] at h; simp at h
    | some user =>
      simp only [hu] at h
      have hid : user.id = dec.id := Db.findUserById_id hu
      have hu' : db.findUserById user.id = some user := by
        rw [hid]; exact hu
      simp only [Db.updateUser, hu'] at h
      injection h with h
      subst h
      have hfind := Db.findUserById_removeAllRefreshTokens
        (db.mapUser user.id (fun _ =>
          { Db.applyUpdates user { password := some (hashPassword newPw) } with
              id := user.id, updatedAt := now })) now user.id
      rw [Db.findUserById_mapUser db user.id (fun _ =>
          { Db.applyUpdates user { password := some (hashPassword newPw) } with
              id := user.id, updatedAt := now }) (fun _ _ => rfl),
        hu'] at hfind
      simp only [Option.map_some'] at hfind
      exact ⟨_, by rw [← hid]; exact hfind, rfl⟩

/-- After a successful `changePassword`, the affected user's persisted
refresh-token set is empty. -/
theorem changePassword_clears (db : Db) (now : Nat) (userId : String)
    (current newPw : String) (db1 : Db)
    (h : AuthService.changePassword db now userId current newPw = .ok db1) :
    ∃ u', db1.findUserById userId = some u' ∧ u'.refreshTokens = [] := by
  unfold AuthService.changePassword at h
  cases hu : db.findUserById userId with
  | none => rw [hu] at h; simp at h
  | some user =>
    simp only [hu] at h
    cases hc : comparePassword current user.password with
    | false => simp [hc] at h
    | true =>
      simp only [hc, Bool.not_true, Bool.false_eq_true, if_false] at h
      have hid : user.id = userId := Db.findUserById_id hu
      have hu' : db.findUserById user.id = some user := by
        rw [hid]; exact hu
      simp only [Db.updateUser, hu'] at h
      injection h with h
      subst h
      have hfind := Db.findUserById_removeAllRefreshTokens
        (db.mapUser user.id (fun _ =>
          { Db.applyUpdates user { password := some (hashPassword newPw) } with
              id := user.id, updatedAt := now })) now user.id
      rw [Db.findUserById_mapUser db user.id (fun _ =>
          { Db.applyUpdates user { password := some (hashPassword newPw) } with
              id := user.id, updatedAt := now }) (fun _ _ => rfl),
        hu'] at hfind
      simp only [Option.map_some'] at hfind
      exact ⟨_, by rw [← hid]; exact hfind, rfl⟩

/-- C4: after a successful `resetPassword(token, newPassword)` or
`changePassword(userId, currentPassword, newPassword)`, the affected
user's refresh-token set is empty, so any refresh token for that user
that still verifies (signed with the refresh secret, unexpired, type
refresh) — in particular every one issued before the call — fails
`refreshToken()` with `AuthenticationError('Invalid refresh token')`. -/
theorem c4_password_change_revokes_sessions (cfg : Config) (db : Db)
    (now : Nat) :
    (∀ tok newPw db1,
      AuthService.resetPassword cfg db now tok newPw = .ok db1 →
      (∃ u', db1.findUserById tok.id = some u' ∧ u'.refreshTokens = []) ∧
      ∀ now2 t, t.id = tok.id → t.secret = cfg.jwt.refreshSecret →
        now2 < t.exp → t.type = TokenType.refresh →
        AuthService.refreshToken cfg db1 now2 t =
          .error (.authentication "Invalid refresh token")) ∧
    (∀ userId current newPw db1,
      AuthService.changePassword db now userId current newPw = .ok db1 →
      (∃ u', db1.findUserById userId = some u' ∧ u'.refreshTokens = []) ∧
      ∀ now2 t, t.id = userId → t.secret = cfg.jwt.refreshSecret →
        now2 < t.exp → t.type = TokenType.refresh →
        AuthService.refreshToken cfg db1 now2 t =
          .error (.authentication "Invalid refresh token")) := by
  constructor
  · intro tok newPw db1 h
    obtain ⟨u', hfind, hempty⟩ :=
      resetPassword_clears cfg db now tok newPw db1 h
    refine ⟨⟨u', hfind, hempty⟩, ?_⟩
    intro now2 t hid hsec hexp htype
    exact refreshToken_err_of_empty cfg db1 now2 t u'
      (by rw [hid]; exact hfind) hempty hsec hexp htype
  · intro userId current newPw db1 h
    obtain ⟨u', hfind, hempty⟩ :=
      changePassword_clears db now userId current newPw db1 h
    refine ⟨⟨u', hfind, hempty⟩, ?_⟩
    intro now2 t hid hsec hexp htype
    exact refreshToken_err_of_empty cfg db1 now2 t u'
      (by rw [hid]; exact hfind) hempty hsec hexp htype

/-- Store after `resetPassword` succeeds on `userRot` at time 200. -/
def dbReset : Db :=
  ⟨[{ userRot with password := hashPassword "NewPw1!"
                   refreshTokens := [], updatedAt := 200 }]⟩

/-- Store after `changePassword` succeeds on `userRot` at time 200. -/
def dbChange : Db :=
  ⟨[{ userRot with password := hashPassword "NewPw2!"
                   refreshTokens := [], updatedAt := 200 }]⟩

/-- C4 witness: a concrete reset and a concrete change, each followed by
a replay of the previously issued refresh token. -/
theorem c4_password_change_revokes_sessions_witness :
    ((∃ u', Db.findUserById dbReset "u1" = some u' ∧
        u'.refreshTokens = []) ∧
      AuthService.refreshToken defaultConfig dbReset 300 refreshTok₀ =
        .error (.authentication "Invalid refresh token")) ∧
    ((∃ u', Db.findUserById dbChange "u1" = some u' ∧
        u'.refreshTokens = []) ∧
      AuthService.refreshToken defaultConfig dbChange 300 refreshTok₀ =
        .error (.authentication "Invalid refresh token")) := by
  have h1 := (c4_password_change_revokes_sessions defaultConfig
      ⟨[userRot]⟩ 200).1
    (generatePasswordResetToken defaultConfig 100 "u1") "NewPw1!" dbReset rfl
  have h2 := (c4_password_change_revokes_sessions defaultConfig
      ⟨[userRot]⟩ 200).2
    "u1" "Correct1!" "NewPw2!" dbChange rfl
  exact ⟨⟨h1.1, h1.2 300 refreshTok₀ rfl rfl (by decide) rfl⟩,
         ⟨h2.1, h2.2 300 refreshTok₀ rfl rfl (by decide) rfl⟩⟩

/-- C5: the email-verification verifier rejects tokens of a different
`type` claim without returning claims — an unexpired refresh token is
rejected with an invalid-token error (whether or not the refresh secret
coincides with the access secret), an unexpired password-reset token
(signed with the same secret the verifier checks) is rejected with an
invalid-token error — and a token signed with the verifier's secret
whose expiry has passed fails with the token-expired error. -/
theorem c5_verifier_type_and_expiry (cfg : Config) (iat now : Nat)
    (uid : String) :
    (now < iat + cfg.jwt.refreshExpiresIn →
      ∃ msg, verifyEmailVerificationToken cfg now
        (generateRefreshToken cfg iat uid) = .error (.invalidToken msg)) ∧
    (now < iat + cfg.security.passwordResetExpiresIn →
      ∃ msg, verifyEmailVerificationToken cfg now
        (generatePasswordResetToken cfg iat uid) =
          .error (.invalidToken msg)) ∧
    (∀ t : Token, t.secret = cfg.jwt.secret → t.exp ≤ now →
      verifyEmailVerificationToken cfg now t =
        .error (.tokenExpired "Email verification token has expired")) := by
  refine ⟨?_, ?_, ?_⟩
  · intro hexp
    by_cases hs : cfg.jwt.refreshSecret = cfg.jwt.secret
    · exact ⟨"Invalid token type", by
        simp [verifyEmailVerificationToken, generateRefreshToken, hs,
          Nat.not_le.mpr hexp]⟩
    · exact ⟨"Invalid email verification token", by
        simp [verifyEmailVerificationToken, generateRefreshToken, hs]⟩
  · intro hexp
    exact ⟨"Invalid token type", by
      simp [verifyEmailVerificationToken, generatePasswordResetToken,
        Nat.not_le.mpr hexp]⟩
  · intro t hsec hexp
    unfold verifyEmailVerificationToken
    rw [if_neg (by simp [hsec]), if_pos hexp]

/-- C5 witness: the three rejections at concrete tokens issued at time 0
under the default configuration. -/
theorem c5_verifier_type_and_expiry_witness :
    (∃ msg, verifyEmailVerificationToken defaultConfig 10
      (generateRefreshToken defaultConfig 0 "u1") =
        .error (.invalidToken msg)) ∧
    (∃ msg, verifyEmailVerificationToken defaultConfig 10
      (generatePasswordResetToken defaultConfig 0 "u1") =
        .error (.invalidToken msg)) ∧
    verifyEmailVerificationToken defaultConfig 90000
      (generateEmailVerificationToken defaultConfig 0 "u1") =
        .error (.tokenExpired "Email verification token has expired") :=
  ⟨(c5_verifier_type_and_expiry defaultConfig 0 10 "u1").1 (by decide),
   (c5_verifier_type_and_expiry defaultConfig 0 10 "u1").2.1 (by decide),
   (c5_verifier_type_and_expiry defaultConfig 0 90000 "u1").2.2
     (generateEmailVerificationToken defaultConfig 0 "u1") rfl (by decide)⟩

/-- C6: `forgotPassword` resolves without throwing and with the identical
caller-visible outcome — a plain resolution and an untouched store —
whether or not a user exists for the email, and whether or not the email
dispatch fails internally (the catch swallows the failure). -/
theorem c6_forgot_password_enumeration_safe (cfg : Config) (db : Db)
    (now : Nat) (emailAbsent emailPresent : String)
    (sendOk1 sendOk2 : Bool)
    (habs : db.findUserByEmail emailAbsent = none)
    (_hpres : (db.findUserByEmail emailPresent).isSome = true) :
    AuthService.forgotPassword cfg db now emailAbsent sendOk1 =
      (.ok (), db) ∧
    AuthService.forgotPassword cfg db now emailPresent sendOk2 =
      (.ok (), db) ∧
    AuthService.forgotPassword cfg db now emailAbsent sendOk1 =
      AuthService.forgotPassword cfg db now emailPresent sendOk2 := by
  have h1 : AuthService.forgotPassword cfg db now emailAbsent sendOk1 =
      (.ok (), db) := by
    unfold AuthService.forgotPassword
    rw [habs]
  have h2 : AuthService.forgotPassword cfg db now emailPresent sendOk2 =
      (.ok (), db) := by
    unfold AuthService.forgotPassword
    cases hp : db.findUserByEmail emailPresent with
    | none => rfl
    | some u =>
      simp only [hp]
      cases sendOk2 <;> rfl
  exact ⟨h1, h2, h1.trans h2.symm⟩

/-- C6 witness: a store holding one user, probed with an email that
matches nobody and with that user's email, once with a succeeding and
once with a failing dispatch. -/
theorem c6_forgot_password_enumeration_safe_witness :
    AuthService.forgotPassword defaultConfig ⟨[userActive]⟩ 0
      "missing@x.io" true = (.ok (), ⟨[userActive]⟩) ∧
    AuthService.forgotPassword defaultConfig ⟨[userActive]⟩ 0
      "c@d.com" false = (.ok (), ⟨[userActive]⟩) ∧
    AuthService.forgotPassword defaultConfig ⟨[userActive]⟩ 0
      "missing@x.io" true =
      AuthService.forgotPassword defaultConfig ⟨[userActive]⟩ 0
        "c@d.com" false :=
  c6_forgot_password_enumeration_safe defaultConfig ⟨[userActive]⟩ 0
    "missing@x.io" "c@d.com" true false rfl rfl

/-! Sanitization of returned user objects. -/

/-- Checks that a returned user object carries neither a `password` nor a
`refreshTokens` key. -/
def noSensitive (l : List (String × Value)) : Bool :=
  l.all (fun kv => !(kv.1 == "password") && !(kv.1 == "refreshTokens"))

/-- `sanitizeUser` output never carries the two stripped keys. -/
theorem noSensitive_sanitizeUser (u : User) :
    noSensitive (sanitizeUser u) = true := rfl

/-- A successful `register` returns a sanitized user object. -/
theorem register_user_sanitized {cfg : Config} {db : Db} {now : Nat}
    {newId : String} {ud : RegisterData} {p : Db × AuthResult}
    (h : AuthService.register cfg db now newId ud = .ok p) :
    ∃ u, p.2.user = sanitizeUser u := by
  unfold AuthService.register at h
  split at h
  · simp at h
  · dsimp only at h
    split at h
    · simp at h
    · injection h with h
      subst h
      exact ⟨_, rfl⟩

/-- A successful `login` returns a sanitized user object. -/
theorem login_user_sanitized {cfg : Config} {db : Db} {now : Nat}
    {email pw : String} {p : Db × AuthResult}
    (h : AuthService.login cfg db now email pw = .ok p) :
    ∃ u, p.2.user = sanitizeUser u := by
  unfold AuthService.login at h
  split at h
  · simp at h
  · split at h
    · simp at h
    · split at h
      · simp at h
      · split at h
        · simp at h
        · injection h with h
          subst h
          exact ⟨_, rfl⟩

/-- A successful `refreshToken` returns a sanitized user object. -/
theorem refresh_user_sanitized {cfg : Config} {db : Db} {now : Nat}
    {t : Token} {p : Db × AuthResult}
    (h : AuthService.refreshToken cfg db now t = .ok p) :
    ∃ u, p.2.user = sanitizeUser u := by
  unfold AuthService.refreshToken at h
  split at h
  · simp at h
  · split at h
    · simp at h
    · split at h
      · injection h with h
        subst h
        exact ⟨_, rfl⟩
      · simp at h

/-- A successful `verifyEmail` returns a sanitized user object. -/
theorem verifyEmail_user_sanitized {cfg : Config} {db : Db} {now : Nat}
    {t : Token} {p : Db × List (String × Value)}
    (h : AuthService.verifyEmail cfg db now t = .ok p) :
    ∃ u, p.2 = sanitizeUser u := by
  unfold AuthService.verifyEmail at h
  split at h
  · simp at h
  · split at h
    · simp at h
    · split at h
      · simp at h
      · split at h
        · simp at h
        · injection h with h
          subst h
          exact ⟨_, rfl⟩

/-- A successful `getProfile` returns a sanitized user object. -/
theorem getProfile_user_sanitized {db : Db} {userId : String}
    {r : List (String × Value)}
    (h : AuthService.getProfile db userId = .ok r) :
    ∃ u, r = sanitizeUser u := by
  unfold AuthService.getProfile at h
  split at h
  · simp at h
  · injection h with h
    subst h
    exact ⟨_, rfl⟩

/-- A successful `updateProfile` returns a sanitized user object. -/
theorem updateProfile_user_sanitized {db : Db} {now : Nat}
    {userId : String} {upd : Db.Updates} {p : Db × List (String × Value)}
    (h : AuthService.updateProfile db now userId upd = .ok p) :
    ∃ u, p.2 = sanitizeUser u := by
  unfold AuthService.updateProfile at h
  split at h
  · simp at h
  · injection h with h
    subst h
    exact ⟨_, rfl⟩

/-- C7: every user object returned by `register`, `login`,
`refreshToken`, `verifyEmail`, `getProfile` and `updateProfile` carries
neither a `password` nor a `refreshTokens` key — each flow returns
`sanitizeUser` output, which strips exactly those two fields. -/
theorem c7_returned_users_sanitized (cfg : Config) (db : Db) (now : Nat) :
    (∀ newId ud p, AuthService.register cfg db now newId ud = .ok p →
      noSensitive p.2.user = true) ∧
    (∀ email pw p, AuthService.login cfg db now email pw = .ok p →
      noSensitive p.2.user = true) ∧
    (∀ t p, AuthService.refreshToken cfg db now t = .ok p →
      noSensitive p.2.user = true) ∧
    (∀ t p, AuthService.verifyEmail cfg db now t = .ok p →
      noSensitive p.2 = true) ∧
    (∀ userId r, AuthService.getProfile db userId = .ok r →
      noSensitive r = true) ∧
    (∀ userId upd p, AuthService.updateProfile db now userId upd = .ok p →
      noSensitive p.2 = true) := by
  refine ⟨?_, ?_, ?_, ?_, ?_, ?_⟩
  · intro newId ud p h
    obtain ⟨u, hu⟩ := register_user_sanitized h
    rw [hu]; exact noSensitive_sanitizeUser u
  · intro email pw p h
    obtain ⟨u, hu⟩ := login_user_sanitized h
    rw [hu]; exact noSensitive_sanitizeUser u
  · intro t p h
    obtain ⟨u, hu⟩ := refresh_user_sanitized h
    rw [hu]; exact noSensitive_sanitizeUser u
  · intro t p h
    obtain ⟨u, hu⟩ := verifyEmail_user_sanitized h
    rw [hu]; exact noSensitive_sanitizeUser u
  · intro userId r h
    obtain ⟨u, hu⟩ := getProfile_user_sanitized h
    rw [hu]; exact noSensitive_sanitizeUser u
  · intro userId upd p h
    obtain ⟨u, hu⟩ := updateProfile_user_sanitized h
    rw [hu]; exact noSensitive_sanitizeUser u

/-- Stored user with an unverified email address. -/
def userUnverified : User :=
  { userActive with id := "u3", email := "g@h.com"
                    isEmailVerified := false }

/-- Store fixture holding an active user, an unverified user and a user
with one persisted refresh token. -/
def dbSeven : Db := ⟨[userActive, userUnverified, userRot]⟩

/-- C7 witness: each of the six flows run successfully against concrete
stores, with the sanitization check evaluated on every returned user. -/
theorem c7_returned_users_sanitized_witness :
    noSensitive (sanitizeUser
      { id := "u9", email := "new@x.io", password := hashPassword "Pw1!"
        name := none, phone := none, role := "user"
        isEmailVerified := true, isActive := true, avatar := none
        bio := none, lastLogin := none, refreshTokens := []
        createdAt := 5, updatedAt := 5 }) = true ∧
    noSensitive (sanitizeUser userActive) = true ∧
    noSensitive (sanitizeUser userRot) = true ∧
    noSensitive (sanitizeUser
      { userUnverified with isEmailVerified := true
                            updatedAt := 5 }) = true ∧
    noSensitive (sanitizeUser userActive) = true ∧
    noSensitive (sanitizeUser
      { userActive with name := some "Zed", updatedAt := 5 }) = true := by
  have h := c7_returned_users_sanitized defaultConfig dbSeven 5
  exact ⟨h.1 "u9" { email := "new@x.io", password := "Pw1!" } _ rfl,
    h.2.1 "c@d.com" "Correct1!" _ rfl,
    h.2.2.1 refreshTok₀ _ rfl,
    h.2.2.2.1 (generateEmailVerificationToken defaultConfig 0 "u3") _ rfl,
    h.2.2.2.2.1 "u2" _ rfl,
    h.2.2.2.2.2 "u2" { name := some (some "Zed") } _ rfl⟩

/-- Mapping over a key that matches no entry leaves the list unchanged. -/
theorem map_on_id_of_absent (l : List User) (id : String) (f : User → User)
    (h : ∀ u ∈ l, (u.id == id) = false) :
    l.map (fun u => if u.id == id then f u else u) = l := by
  induction l with
  | nil => rfl
  | cons u l ih =>
    have hu := h u (List.mem_cons_self u l)
    simp only [List.map_cons, hu, Bool.false_eq_true, if_false]
    rw [ih (fun v hv => h v (List.mem_cons_of_mem u hv))]

/-- `mapUser` on an id absent from the store is the identity. -/
theorem Db.mapUser_of_not_found {db : Db} {id : String} (f : User → User)
    (h : db.findUserById id = none) : db.mapUser id f = db := by
  have hall : ∀ u ∈ db.users, (u.id == id) = false := by
    intro u hu
    have := List.find?_eq_none.mp h u hu
    simpa using this
  unfold Db.mapUser
  rw [map_on_id_of_absent db.users id f hall]

/-- C8 counterexample: `logout` with a token absent from the set does
resolve and leaves the refresh-token set unchanged, but it does not
leave every other field of the user record unchanged — memory.js
`removeRefreshToken` stamps `updatedAt` unconditionally, so the stored
record differs after the call. -/
theorem c8_counterexample :
    refreshTok₀ ∉ userActive.refreshTokens ∧
    AuthService.logout ⟨[userActive]⟩ 5 "u2" refreshTok₀ =
      .ok ⟨[{ userActive with updatedAt := 5 }]⟩ ∧
    ({ userActive with updatedAt := 5 }).updatedAt ≠ userActive.updatedAt := by
  refine ⟨by decide, rfl, by decide⟩

/-- C8 (amended): `logout(userId, t)` with `t` not in the user's set
never throws; when no user has that id the store is wholly unchanged;
when the user exists, its refresh-token set and every field except
`updatedAt` are unchanged — `updatedAt` is stamped with the call time —
and repeating the same call leaves the record in that same state. -/
theorem c8_logout_absent_token (db : Db) (now : Nat) (userId : String)
    (t : Token) :
    (AuthService.logout db now userId t).isOk = true ∧
    (db.findUserById userId = none →
      AuthService.logout db now userId t = .ok db) ∧
    (∀ u, db.findUserById userId = some u → t ∉ u.refreshTokens →
      ∃ db', AuthService.logout db now userId t = .ok db' ∧
        db'.findUserById userId = some { u with updatedAt := now } ∧
        ∃ db'', AuthService.logout db' now userId t = .ok db'' ∧
          db''.findUserById userId = some { u with updatedAt := now }) := by
  refine ⟨rfl, ?_, ?_⟩
  · intro h
    unfold AuthService.logout Db.removeRefreshToken
    rw [Db.mapUser_of_not_found _ h]
  · intro u hu hmem
    have hstep : ∀ d : Db, d.findUserById userId = some u →
        (d.removeRefreshToken now userId t).findUserById userId =
          some { u with updatedAt := now } := by
      intro d hd
      rw [Db.findUserById_removeRefreshToken, hd]
      simp only [Option.map_some']
      rw [filter_ne_of_not_mem hmem]
    have hstep2 : ∀ d : Db,
        d.findUserById userId = some ({ u with updatedAt := now } : User) →
        (d.removeRefreshToken now userId t).findUserById userId =
          some { u with updatedAt := now } := by
      intro d hd
      rw [Db.findUserById_removeRefreshToken, hd]
      simp only [Option.map_some']
      rw [show ({ u with updatedAt := now } : User).refreshTokens.filter
            (fun x => x ≠ t) = u.refreshTokens from
          filter_ne_of_not_mem hmem]
    exact ⟨_, rfl, hstep db hu, _, rfl,
      hstep2 (db.removeRefreshToken now userId t) (hstep db hu)⟩

/-- C8 witness: the amended statement at a concrete store — an absent
user id, and a user whose set lacks the presented token. -/
theorem c8_logout_absent_token_witness :
    AuthService.logout ⟨[userActive]⟩ 5 "nobody" refreshTok₀ =
      .ok ⟨[userActive]⟩ ∧
    (∃ db', AuthService.logout ⟨[userActive]⟩ 5 "u2" refreshTok₀ =
        .ok db' ∧
      db'.findUserById "u2" = some { userActive with updatedAt := 5 } ∧
      ∃ db'', AuthService.logout db' 5 "u2" refreshTok₀ = .ok db'' ∧
        db''.findUserById "u2" = some { userActive with updatedAt := 5 }) :=
  ⟨(c8_logout_absent_token ⟨[userActive]⟩ 5 "nobody" refreshTok₀).2.1 rfl,
   (c8_logout_absent_token ⟨[userActive]⟩ 5 "u2" refreshTok₀).2.2
     userActive rfl (by decide)⟩

/-- C9 counterexample: `updateProfile` with an empty updates object
changes no allow-listed field, yet the stored record still changes —
memory.js `updateUser` stamps `updatedAt` on every call, so a field
outside `name`/`phone`/`bio`/`avatar` changes. -/
theorem c9_counterexample :
    AuthService.updateProfile ⟨[userActive]⟩ 5 "u2" {} =
      .ok (⟨[{ userActive with updatedAt := 5 }]⟩,
        sanitizeUser { userActive with updatedAt := 5 }) ∧
    ({ userActive with updatedAt := 5 }).updatedAt ≠
      userActive.updatedAt := by
  refine ⟨rfl, by decide⟩

/-- C9 (amended): for every updates object passed to `updateProfile`,
only the allow-listed fields `name`, `phone`, `bio`, `avatar` — plus the
bookkeeping timestamp `updatedAt`, which is stamped with the call time —
may change on the stored record: `role`, `email`, `password`,
`isEmailVerified`, `isActive` and `refreshTokens` are unchanged after
the call, whatever keys the updates object contains. -/
theorem c9_update_profile_frame (db : Db) (now : Nat) (userId : String)
    (upd : Db.Updates) (u : User) (p : Db × List (String × Value))
    (hu : db.findUserById userId = some u)
    (h : AuthService.updateProfile db now userId upd = .ok p) :
    ∃ u', p.1.findUserById userId = some u' ∧
      u'.role = u.role ∧ u'.email = u.email ∧
      u'.password = u.password ∧
      u'.isEmailVerified = u.isEmailVerified ∧
      u'.isActive = u.isActive ∧
      u'.refreshTokens = u.refreshTokens ∧
      u'.updatedAt = now := by
  unfold AuthService.updateProfile Db.updateUser at h
  rw [hu] at h
  dsimp only at h
  injection h with h
  subst h
  have hfind := Db.findUserById_mapUser db userId
    (fun _ => { Db.applyUpdates u (AuthService.filterAllowed upd) with
        id := u.id, updatedAt := now })
    (fun _ _ => (Db.findUserById_id hu : u.id = userId))
  rw [hu] at hfind
  simp only [Option.map_some'] at hfind
  exact ⟨_, hfind, rfl, rfl, rfl, rfl, rfl, rfl, rfl⟩

/-- C9 witness: a hostile updates object that tries to set every
protected field at once; the stored record keeps them all. -/
theorem c9_update_profile_frame_witness :
    ∃ u', Db.findUserById
        (⟨[{ userActive with name := some "Eve", updatedAt := 9 }]⟩ : Db)
        "u2" = some u' ∧
      u'.role = userActive.role ∧ u'.email = userActive.email ∧
      u'.password = userActive.password ∧
      u'.isEmailVerified = userActive.isEmailVerified ∧
      u'.isActive = userActive.isActive ∧
      u'.refreshTokens = userActive.refreshTokens ∧
      u'.updatedAt = 9 :=
  c9_update_profile_frame ⟨[userActive]⟩ 9 "u2"
    { name := some (some "Eve"), email := some "evil@x.io"
      password := some "stolen", role := some "admin"
      isEmailVerified := some false, isActive := some false
      refreshTokens := some [refreshTok₀] }
    userActive
    (⟨[{ userActive with name := some "Eve", updatedAt := 9 }]⟩,
      sanitizeUser { userActive with name := some "Eve", updatedAt := 9 })
    rfl rfl

/-! Role selection in registration. -/

/-- Appending a user to a list in which nothing matches the predicate
makes it the one found. -/
theorem find_append_singleton (l : List User) (u : User) (p : User → Bool)
    (h : l.find? p = none) (hp : p u = true) :
    (l ++ [u]).find? p = some u := by
  induction l with
  | nil => simp [List.find?_cons, hp]
  | cons v l ih =>
    have hv : p v = false := by
      have := List.find?_eq_none.mp h v (List.mem_cons_self v l)
      simpa using this
    simp only [List.find?_cons, hv, Bool.false_eq_true, List.cons_append]
    apply ih
    simp only [List.find?_cons, hv, Bool.false_eq_true] at h
    exact h

/-- A role resolved by `userData.role || 'user'` is never the empty
string. -/
theorem jsOr_user_ne_empty (o : Option String) : jsOr o "user" ≠ "" := by
  cases o with
  | none => simp [jsOr]
  | some s =>
    simp only [jsOr, jsOrStr]
    split
    · simp
    · assumption

/-- The second `|| 'user'` applied inside memory.js `createUser` is the
identity on the role already resolved by the service. -/
theorem jsOr_some_jsOr (o : Option String) :
    jsOr (some (jsOr o "user")) "user" = jsOr o "user" := by
  show jsOrStr (jsOr o "user") "user" = jsOr o "user"
  unfold jsOrStr
  rw [if_neg (jsOr_user_ne_empty o)]

/-- The role stored by a successful `register` is exactly
`userData.role || 'user'` (JS truthiness included). -/
theorem register_role_eq {cfg : Config} {db : Db} {now : Nat}
    {newId : String} {ud : RegisterData} {p : Db × AuthResult}
    (hfresh : db.findUserById newId = none)
    (h : AuthService.register cfg db now newId ud = .ok p) :
    (p.1.findUserById newId).map User.role =
      some (jsOr ud.role "user") := by
  unfold AuthService.register at h
  split at h
  · simp at h
  · dsimp only at h
    split at h
    · simp at h
    · rename_i db1 user heq
      unfold Db.createUser at heq
      dsimp only at heq
      split at heq
      · simp at heq
      · injection heq with heq
        injection heq with heq1 heq2
        subst heq1
        subst heq2
        injection h with h
        subst h
        dsimp only
        rw [Db.findUserById_addRefreshToken]
        unfold Db.findUserById at hfresh ⊢
        dsimp only
        rw [List.find?_append, hfresh]
        simp [jsOr_some_jsOr]

/-- C10 counterexample: the empty string is a provided role, yet JS
truthiness (`userData.role || 'user'`) makes `register` store `'user'`
for it — the default is not taken only when the role is absent. -/
theorem c10_counterexample :
    (∃ p, AuthService.register defaultConfig ⟨[]⟩ 7 "u9"
        { email := "x@y.io", password := "Pw1!", role := some "" } =
          .ok p ∧
      (p.1.findUserById "u9").map User.role = some "user") ∧
    some ("" : String) ≠ (none : Option String) ∧
    ("" : String) ≠ "user" := by
  refine ⟨⟨_, rfl, rfl⟩, by decide, by decide⟩

/-- C10 (amended): `AuthService.register` honors a caller-supplied role
whenever it is provided and truthy (non-empty) — e.g. `'admin'` — and
stores `'user'` when `userData.role` is absent or the empty string (JS
falsy); the HTTP-layer Joi `registerSchema` declares no role field and
strips unknown keys, so a request body passed through it always yields
role `'user'`, while a caller invoking the service directly can choose
any non-empty role. -/
theorem c10_register_role (cfg : Config) (db : Db) (now : Nat)
    (newId : String) (ud : RegisterData) (p : Db × AuthResult)
    (hfresh : db.findUserById newId = none)
    (h : AuthService.register cfg db now newId ud = .ok p) :
    (∀ r, ud.role = some r → r ≠ "" →
      (p.1.findUserById newId).map User.role = some r) ∧
    (ud.role = none ∨ ud.role = some "" →
      (p.1.findUserById newId).map User.role = some "user") ∧
    (registerSchemaStrip ud).role = none ∧
    (∀ q, AuthService.register cfg db now newId (registerSchemaStrip ud) =
        .ok q →
      (q.1.findUserById newId).map User.role = some "user") := by
  have hr := register_role_eq hfresh h
  refine ⟨?_, ?_, rfl, ?_⟩
  · intro r hrole hne
    rw [hr, hrole]
    simp [jsOr, jsOrStr, hne]
  · intro hcase
    rw [hr]
    rcases hcase with hc | hc <;> rw [hc]
    · rfl
    · simp [jsOr, jsOrStr]
  · intro q hq
    exact register_role_eq hfresh hq

/-- C10 witness: a direct service call choosing role `'admin'` stores
`'admin'`; the same body passed through the Joi stripping stores
`'user'`. -/
theorem c10_register_role_witness :
    (Db.findUserById
        (⟨[{ id := "u9", email := "x@y.io"
             password := hashPassword "Pw1!", name := none, phone := none
             role := "admin", isEmailVerified := true, isActive := true
             avatar := none, bio := none, lastLogin := none
             refreshTokens := [generateRefreshToken defaultConfig 7 "u9"]
             createdAt := 7, updatedAt := 7 }]⟩ : Db) "u9").map
      User.role = some "admin" ∧
    (registerSchemaStrip
      { email := "x@y.io", password := "Pw1!"
        role := some "admin" }).role = none ∧
    (Db.findUserById
        (⟨[{ id := "u9", email := "x@y.io"
             password := hashPassword "Pw1!", name := none, phone := none
             role := "user", isEmailVerified := true, isActive := true
             avatar := none, bio := none, lastLogin := none
             refreshTokens := [generateRefreshToken defaultConfig 7 "u9"]
             createdAt := 7, updatedAt := 7 }]⟩ : Db) "u9").map
      User.role = some "user" := by
  have h := c10_register_role defaultConfig ⟨[]⟩ 7 "u9"
    { email := "x@y.io", password := "Pw1!", role := some "admin" }
    _ rfl rfl
  exact ⟨h.1 "admin" rfl (by decide), h.2.2.1, h.2.2.2 _ rfl⟩

end ModuleAuth
